import Mathlib

/-!
Verification of the session-based chat relay (src/app.py).

The embedding mirrors the Python source:
- `conversation_histories` (a dict from session id to a list of role/content
  dicts) becomes `Store`, an association list with unique keys;
- `handle_connect`, `handle_disconnect` and `handle_user_message` become
  explicit state-passing functions over `Store` that also return the list of
  socket events they emit;
- the Groq completion call `client_groq.chat.completions.create` is a
  parameter `CompleteFn`; a raised exception is an `Except.error` carrying
  `str(e)`;
- the `try/except` block of `handle_user_message` is modelled in `Except`;
  the handler itself returns `Except` so that an uncaught exception would
  show up as `Except.error`.
Nondeterministic inputs of the source (the fresh `uuid.uuid4()` string and
the `get_timestamp()` clock string) are passed as parameters.
-/

set_option autoImplicit false

/-- The conversation roles appearing in src/app.py: "system", "user", "assistant". -/
inductive Role where
  | system
  | user
  | assistant
  deriving DecidableEq, Repr

/-- One entry of a conversation history: the Python dict
`{"role": ..., "content": ...}`.  `content` is `Option String` because
`data.get('message')` may be `None` and is appended as-is. -/
structure Turn where
  role : Role
  content : Option String
  deriving DecidableEq, Repr

/-- A conversation history: one value of the `conversation_histories` dict. -/
abbrev Transcript := List Turn

/-- The session store `conversation_histories`: a mapping from session id to
transcript, modelled as an association list (keys unique by construction of
`Store.set`). -/
abbrev Store := List (String × Transcript)

/-- Dict lookup `conversation_histories[id]` / membership `id in conversation_histories`. -/
def Store.find : Store → String → Option Transcript
  | [], _ => none
  | (k, v) :: rest, id => if k = id then some v else Store.find rest id

/-- Dict assignment `conversation_histories[id] = t` (overwrites if present,
inserts otherwise).  List mutation `.append` is modelled as `set id (find id ++ [turn])`. -/
def Store.set : Store → String → Transcript → Store
  | [], id, t => [(id, t)]
  | (k, v) :: rest, id, t =>
      if k = id then (id, t) :: rest else (k, v) :: Store.set rest id t

/-- Modelled from the spec: the repository's Session Store is a bare dict
(src/app.py line 27) and no remove operation appears anywhere in src/; the
spec §4.1 declares `remove(id)`: "deletes the entry; must be idempotent
(no-op if already absent)".  Deletion of the entry for `id` from the mapping. -/
def Store.remove : Store → String → Store
  | [], _ => []
  | (k, v) :: rest, id =>
      if k = id then Store.remove rest id else (k, v) :: Store.remove rest id

/-- The socket events emitted by src/app.py: `session_id`, `bot_message`
(with `message` and `timestamp` payload fields) and `error`. -/
inductive Event where
  | session_id (id : String)
  | bot_message (message : String) (timestamp : String)
  | error (message : String)
  deriving DecidableEq, Repr

/-- `SYSTEM_PROMPT` of src/app.py line 30. -/
def SYSTEM_PROMPT : String :=
  "You are a helpful AI assistant with a friendly and playful personality. Answer questions concisely and accurately."

/-- The fixed greeting emitted on connect (src/app.py line 48). -/
def WELCOME_MESSAGE : String :=
  "Hello there! I'm your friendly chatbot. How can I help you today? 😊"

/-- The fixed model identifier of the completion request (src/app.py line 73). -/
def MODEL_ID : String := "llama-3.3-70b-versatile"

/-- `response.choices[i].message` of the Groq response object. -/
structure ChoiceMessage where
  content : String
  deriving DecidableEq, Repr

/-- One element of `response.choices`. -/
structure Choice where
  message : ChoiceMessage
  deriving DecidableEq, Repr

/-- The Groq completion response object: exposes `choices`. -/
structure GroqResponse where
  choices : List Choice
  deriving DecidableEq, Repr

/-- The request handed to `client_groq.chat.completions.create`
(src/app.py lines 72-75): the fixed model identifier and the session's
conversation history. -/
structure GroqRequest where
  model : String
  messages : List Turn
  deriving DecidableEq, Repr

/-- The external completion call: given the request, either returns a
response object or raises (`Except.error` carries `str(e)`). -/
abbrev CompleteFn := GroqRequest → Except String GroqResponse

/-- The inbound `user_message` payload `data`: `data.get('session_id')` and
`data.get('message')` give `none` when the key is absent. -/
structure Payload where
  session_id : Option String
  message : Option String
  deriving DecidableEq, Repr

/-- Python truthiness test `not session_id` on an optional string:
true for `None` and for the empty string. -/
def falsy : Option String → Bool
  | none => true
  | some s => s = ""

/-- `handle_connect` (src/app.py lines 37-50): seeds the transcript of the
fresh `session_id` with the single system turn and emits the `session_id`
event followed by the welcome `bot_message`.  The fresh uuid and the
timestamp are parameters. -/
def handle_connect (store : Store) (session_id : String) (ts : String) :
    Store × List Event :=
  (store.set session_id [⟨Role.system, some SYSTEM_PROMPT⟩],
   [Event.session_id session_id, Event.bot_message WELCOME_MESSAGE ts])

/-- `handle_disconnect` (src/app.py lines 52-55): its body only prints to the
server log; the store is untouched and no event is emitted to the client. -/
def handle_disconnect (store : Store) : Store × List Event :=
  (store, [])

/-- The body of the `try` block of `handle_user_message` after the completion
call (src/app.py lines 72-78): invoke the call, then extract
`response.choices[0].message.content`; indexing `[0]` into an empty list
raises `IndexError('list index out of range')`. -/
def try_block (complete : CompleteFn) (req : GroqRequest) : Except String String := do
  let response ← complete req
  match response.choices with
  | [] => Except.error "list index out of range"
  | c :: _ => Except.ok c.message.content

/-- `handle_user_message` (src/app.py lines 57-93).  Returns the updated
store, the emitted events, and the completion request that was sent upstream
(`none` when validation rejected the message before any call).  The outer
`Except` reflects exception flow: an exception escaping the handler would be
`Except.error`; the source's `except` clause turns every failure of the
`try` block into an apologetic `bot_message`. -/
def handle_user_message (complete : CompleteFn) (store : Store) (data : Payload)
    (ts : String) : Except String (Store × List Event × Option GroqRequest) :=
  let session_id := data.session_id
  let message := data.message
  if falsy session_id ∨ Store.find store (session_id.getD "") = none then
    Except.ok (store, [Event.error "Session not found"], none)
  else
    let sid := session_id.getD ""
    let hist := (Store.find store sid).getD [] ++ [⟨Role.user, message⟩]
    let store1 := Store.set store sid hist
    let req : GroqRequest := ⟨MODEL_ID, hist⟩
    match try_block complete req with
    | Except.ok bot_response =>
        Except.ok (Store.set store1 sid (hist ++ [⟨Role.assistant, some bot_response⟩]),
          [Event.bot_message bot_response ts], some req)
    | Except.error e =>
        Except.ok (store1,
          [Event.bot_message ("Sorry, I encountered an error: " ++ e) ts], some req)

/-- A transcript is non-empty and starts with a system turn. -/
def startsWithSystem : Transcript → Prop
  | [] => False
  | turn :: _ => turn.role = Role.system

instance (t : Transcript) : Decidable (startsWithSystem t) := by
  cases t with
  | nil => exact isFalse (fun h => h)
  | cons turn rest => exact inferInstanceAs (Decidable (turn.role = Role.system))

/-- The spec §3 invariant on the Session Store: every existing session id
maps to a non-empty transcript whose first turn is a system turn. -/
def StoreInv (s : Store) : Prop :=
  ∀ id t, Store.find s id = some t → startsWithSystem t

/-- An event a client can read as the outcome of its message: either a chat
message or an error notification. -/
def Event.isUserVisible : Event → Prop
  | Event.bot_message _ _ => True
  | Event.error _ => True
  | Event.session_id _ => False

/-- A mocked completion call that always answers with one choice, mirroring
the repository's test mock (src/tests/test_app.py, `test_user_message_success`). -/
def demoComplete : CompleteFn :=
  fun _ => Except.ok ⟨[⟨⟨"Hello! How can I help you?"⟩⟩]⟩

/-- A mocked completion call that always raises, mirroring the repository's
test mock (src/tests/test_app.py, `test_user_message_api_error`). -/
def demoFailComplete : CompleteFn :=
  fun _ => Except.error "API Error"

/-- The store right after one connect with fresh id "s1". -/
def demoStore : Store := (handle_connect [] "s1" "10:00").1

/-- The transcript after the user turn "Hi" has been appended to the fresh
session. -/
def demoTranscript2 : Transcript :=
  [⟨Role.system, some SYSTEM_PROMPT⟩, ⟨Role.user, some "Hi"⟩]

/-- The store after connect followed by one successful exchange on "s1". -/
def demoSuccessStore : Store :=
  [("s1", demoTranscript2 ++ [⟨Role.assistant, some "Hello! How can I help you?"⟩])]

/-! ### Basic lemmas about the store operations -/

theorem find_set_self (s : Store) (id : String) (t : Transcript) :
    Store.find (Store.set s id t) id = some t := by
  induction s with
  | nil => simp [Store.set, Store.find]
  | cons p rest ih =>
      obtain ⟨k, v⟩ := p
      by_cases h : k = id
      · simp [Store.set, Store.find, h]
      · simp [Store.set, Store.find, h, ih]

theorem find_set_ne (s : Store) (id j : String) (t : Transcript) (h : j ≠ id) :
    Store.find (Store.set s id t) j = Store.find s j := by
  induction s with
  | nil =>
      have h1 : id ≠ j := Ne.symm h
      simp [Store.set, Store.find, h1]
  | cons p rest ih =>
      obtain ⟨k, v⟩ := p
      by_cases hk : k = id
      · have h1 : id ≠ j := Ne.symm h
        have h2 : k ≠ j := by rw [hk]; exact h1
        simp [Store.set, Store.find, hk, h1, h2]
      · simp [Store.set, Store.find, hk, ih]

theorem set_set (s : Store) (id : String) (t t' : Transcript) :
    Store.set (Store.set s id t) id t' = Store.set s id t' := by
  induction s with
  | nil => simp [Store.set]
  | cons p rest ih =>
      obtain ⟨k, v⟩ := p
      by_cases h : k = id
      · simp [Store.set, h]
      · simp [Store.set, h, ih]

theorem find_remove_self (s : Store) (id : String) :
    Store.find (Store.remove s id) id = none := by
  induction s with
  | nil => simp [Store.remove, Store.find]
  | cons p rest ih =>
      obtain ⟨k, v⟩ := p
      by_cases h : k = id
      · simp [Store.remove, h, ih]
      · simp [Store.remove, Store.find, h, ih]

theorem remove_absent (s : Store) (id : String) (h : Store.find s id = none) :
    Store.remove s id = s := by
  induction s with
  | nil => simp [Store.remove]
  | cons p rest ih =>
      obtain ⟨k, v⟩ := p
      by_cases hk : k = id
      · simp [Store.find, hk] at h
      · simp [Store.find, hk] at h
        simp [Store.remove, hk, ih h]

theorem remove_remove (s : Store) (id : String) :
    Store.remove (Store.remove s id) id = Store.remove s id := by
  exact remove_absent _ _ (find_remove_self s id)

theorem storeInv_set (s : Store) (id : String) (t : Transcript)
    (hs : StoreInv s) (ht : startsWithSystem t) : StoreInv (Store.set s id t) := by
  intro j u hj
  by_cases h : j = id
  · subst h
    rw [find_set_self] at hj
    cases hj
    exact ht
  · rw [find_set_ne s id j t h] at hj
    exact hs j u hj

theorem startsWithSystem_append (t : Transcript) (l : List Turn)
    (h : startsWithSystem t) : startsWithSystem (t ++ l) := by
  cases t with
  | nil => exact h.elim
  | cons turn rest => exact h

/-! ### Path lemmas for `handle_user_message` -/

theorem try_block_ok (complete : CompleteFn) (req : GroqRequest)
    (resp : GroqResponse) (c : Choice) (rest : List Choice)
    (hc : complete req = Except.ok resp) (hch : resp.choices = c :: rest) :
    try_block complete req = Except.ok c.message.content := by
  simp [try_block, hc, hch, Bind.bind, Except.bind]

theorem try_block_raise (complete : CompleteFn) (req : GroqRequest) (e : String)
    (hc : complete req = Except.error e) :
    try_block complete req = Except.error e := by
  simp [try_block, hc, Bind.bind, Except.bind]

theorem try_block_no_choice (complete : CompleteFn) (req : GroqRequest)
    (resp : GroqResponse) (hc : complete req = Except.ok resp)
    (hch : resp.choices = []) :
    try_block complete req = Except.error "list index out of range" := by
  simp [try_block, hc, hch, Bind.bind, Except.bind]

theorem handle_user_message_ok_path (complete : CompleteFn) (store : Store)
    (sid : String) (msg : Option String) (t : Transcript) (ts : String) (r : String)
    (hsid : sid ≠ "") (hfind : Store.find store sid = some t)
    (htry : try_block complete ⟨MODEL_ID, t ++ [⟨Role.user, msg⟩]⟩ = Except.ok r) :
    handle_user_message complete store ⟨some sid, msg⟩ ts =
      Except.ok (Store.set store sid
          (t ++ [⟨Role.user, msg⟩, ⟨Role.assistant, some r⟩]),
        [Event.bot_message r ts], some ⟨MODEL_ID, t ++ [⟨Role.user, msg⟩]⟩) := by
  have hcond : ¬ (falsy (some sid) ∨
      Store.find store ((some sid).getD "") = none) := by
    simp [falsy, hsid, hfind]
  simp only [handle_user_message]
  rw [if_neg hcond]
  simp [hfind, htry, set_set]

theorem handle_user_message_err_path (complete : CompleteFn) (store : Store)
    (sid : String) (msg : Option String) (t : Transcript) (ts : String) (e : String)
    (hsid : sid ≠ "") (hfind : Store.find store sid = some t)
    (htry : try_block complete ⟨MODEL_ID, t ++ [⟨Role.user, msg⟩]⟩ = Except.error e) :
    handle_user_message complete store ⟨some sid, msg⟩ ts =
      Except.ok (Store.set store sid (t ++ [⟨Role.user, msg⟩]),
        [Event.bot_message ("Sorry, I encountered an error: " ++ e) ts],
        some ⟨MODEL_ID, t ++ [⟨Role.user, msg⟩]⟩) := by
  have hcond : ¬ (falsy (some sid) ∨
      Store.find store ((some sid).getD "") = none) := by
    simp [falsy, hsid, hfind]
  simp only [handle_user_message]
  rw [if_neg hcond]
  simp [hfind, htry, set_set]

theorem handle_user_message_cases (complete : CompleteFn) (store : Store)
    (data : Payload) (ts : String) :
    handle_user_message complete store data ts =
        Except.ok (store, [Event.error "Session not found"], none) ∨
    (∃ t r, Store.find store (data.session_id.getD "") = some t ∧
      handle_user_message complete store data ts =
        Except.ok (Store.set store (data.session_id.getD "")
            (t ++ [⟨Role.user, data.message⟩, ⟨Role.assistant, some r⟩]),
          [Event.bot_message r ts],
          some ⟨MODEL_ID, t ++ [⟨Role.user, data.message⟩]⟩)) ∨
    (∃ t e, Store.find store (data.session_id.getD "") = some t ∧
      handle_user_message complete store data ts =
        Except.ok (Store.set store (data.session_id.getD "")
            (t ++ [⟨Role.user, data.message⟩]),
          [Event.bot_message ("Sorry, I encountered an error: " ++ e) ts],
          some ⟨MODEL_ID, t ++ [⟨Role.user, data.message⟩]⟩)) := by
  by_cases hcond : falsy data.session_id ∨
      Store.find store (data.session_id.getD "") = none
  · left
    simp only [handle_user_message]
    rw [if_pos hcond]
  · right
    cases hfo : Store.find store (data.session_id.getD "") with
    | none => exact absurd (Or.inr hfo) hcond
    | some t =>
        cases htry : try_block complete ⟨MODEL_ID, t ++ [⟨Role.user, data.message⟩]⟩ with
        | ok r =>
            refine Or.inl ⟨t, r, rfl, ?_⟩
            simp only [handle_user_message]
            rw [if_neg hcond]
            simp [hfo, htry, set_set]
        | error e =>
            refine Or.inr ⟨t, e, rfl, ?_⟩
            simp only [handle_user_message]
            rw [if_neg hcond]
            simp [hfo, htry, set_set]

/-! ### Claim theorems -/

/-- C1: for every session id present in the store, a user message whose
completion call succeeds appends exactly two turns to that transcript — the
user turn with the inbound text, then the assistant turn with the extracted
top response text — so the transcript grows by exactly 2, and a single
bot_message event carrying that response text and the timestamp is emitted. -/
theorem user_message_success_appends_two (complete : CompleteFn) (store : Store)
    (sid msg : String) (t : Transcript) (ts : String)
    (resp : GroqResponse) (c : Choice) (rest : List Choice)
    (hsid : sid ≠ "") (hfind : Store.find store sid = some t)
    (hc : complete ⟨MODEL_ID, t ++ [⟨Role.user, some msg⟩]⟩ = Except.ok resp)
    (hch : resp.choices = c :: rest) :
    handle_user_message complete store ⟨some sid, some msg⟩ ts =
      Except.ok (Store.set store sid
          (t ++ [⟨Role.user, some msg⟩, ⟨Role.assistant, some c.message.content⟩]),
        [Event.bot_message c.message.content ts],
        some ⟨MODEL_ID, t ++ [⟨Role.user, some msg⟩]⟩) ∧
    Store.find (Store.set store sid
        (t ++ [⟨Role.user, some msg⟩, ⟨Role.assistant, some c.message.content⟩])) sid
      = some (t ++ [⟨Role.user, some msg⟩, ⟨Role.assistant, some c.message.content⟩]) ∧
    (t ++ ([⟨Role.user, some msg⟩,
      ⟨Role.assistant, some c.message.content⟩] : Transcript)).length = t.length + 2 := by
  refine ⟨?_, find_set_self _ _ _, by simp⟩
  exact handle_user_message_ok_path complete store sid (some msg) t ts
    c.message.content hsid hfind (try_block_ok complete _ resp c rest hc hch)

/-- C1 witness: the concrete success run of the repository's own test
scenario, evaluated. -/
theorem user_message_success_appends_two_witness :
    handle_user_message demoComplete demoStore ⟨some "s1", some "Hi"⟩ "10:01" =
      Except.ok (Store.set demoStore "s1"
          ([⟨Role.system, some SYSTEM_PROMPT⟩] ++ [⟨Role.user, some "Hi"⟩,
            ⟨Role.assistant, some "Hello! How can I help you?"⟩]),
        [Event.bot_message "Hello! How can I help you?" "10:01"],
        some ⟨MODEL_ID, [⟨Role.system, some SYSTEM_PROMPT⟩] ++ [⟨Role.user, some "Hi"⟩]⟩) ∧
    ([⟨Role.system, some SYSTEM_PROMPT⟩] ++ [⟨Role.user, some "Hi"⟩,
      ⟨Role.assistant, some "Hello! How can I help you?"⟩] : Transcript).length = 1 + 2 := by
  have h := user_message_success_appends_two demoComplete demoStore "s1" "Hi"
    [⟨Role.system, some SYSTEM_PROMPT⟩] "10:01"
    (⟨[⟨⟨"Hello! How can I help you?"⟩⟩]⟩ : GroqResponse)
    (⟨⟨"Hello! How can I help you?"⟩⟩ : Choice) []
    (by decide) rfl rfl rfl
  exact ⟨h.1, h.2.2⟩

/-- C2: when the completion call raises, the handler catches the failure,
emits a bot_message whose text embeds the failure's string description,
appends no assistant turn (the transcript gains only the user turn), returns
normally, and the session entry is still present for subsequent messages. -/
theorem user_message_failure_contained (complete : CompleteFn) (store : Store)
    (sid msg : String) (t : Transcript) (ts : String) (e : String)
    (hsid : sid ≠ "") (hfind : Store.find store sid = some t)
    (hc : complete ⟨MODEL_ID, t ++ [⟨Role.user, some msg⟩]⟩ = Except.error e) :
    handle_user_message complete store ⟨some sid, some msg⟩ ts =
      Except.ok (Store.set store sid (t ++ [⟨Role.user, some msg⟩]),
        [Event.bot_message ("Sorry, I encountered an error: " ++ e) ts],
        some ⟨MODEL_ID, t ++ [⟨Role.user, some msg⟩]⟩) ∧
    Store.find (Store.set store sid (t ++ [⟨Role.user, some msg⟩])) sid =
      some (t ++ [⟨Role.user, some msg⟩]) ∧
    ∀ turn ∈ t ++ [⟨Role.user, some msg⟩], turn ∈ t ∨ turn = ⟨Role.user, some msg⟩ := by
  refine ⟨?_, find_set_self _ _ _, by intro turn hturn; simpa using hturn⟩
  exact handle_user_message_err_path complete store sid (some msg) t ts e hsid hfind
    (try_block_raise complete _ e hc)

/-- C2 witness: the concrete failing run of the repository's own test
scenario, evaluated. -/
theorem user_message_failure_contained_witness :
    handle_user_message demoFailComplete demoStore ⟨some "s1", some "Hi"⟩ "10:01" =
      Except.ok (Store.set demoStore "s1"
          ([⟨Role.system, some SYSTEM_PROMPT⟩] ++ [⟨Role.user, some "Hi"⟩]),
        [Event.bot_message ("Sorry, I encountered an error: " ++ "API Error") "10:01"],
        some ⟨MODEL_ID, [⟨Role.system, some SYSTEM_PROMPT⟩] ++ [⟨Role.user, some "Hi"⟩]⟩) :=
  (user_message_failure_contained demoFailComplete demoStore "s1" "Hi"
    [⟨Role.system, some SYSTEM_PROMPT⟩] "10:01" "API Error" (by decide) rfl rfl).1

/-- C3: a payload whose session id is missing, empty, or absent from the store
is rejected with the fixed error event "Session not found", no completion
request is made, and the store is returned completely unchanged. -/
theorem invalid_session_rejected (complete : CompleteFn) (store : Store)
    (data : Payload) (ts : String)
    (h : data.session_id = none ∨ data.session_id = some "" ∨
      Store.find store (data.session_id.getD "") = none) :
    handle_user_message complete store data ts =
      Except.ok (store, [Event.error "Session not found"], none) := by
  have hcond : falsy data.session_id ∨
      Store.find store (data.session_id.getD "") = none := by
    rcases h with h | h | h
    · left; simp [falsy, h]
    · left; simp [falsy, h]
    · right; exact h
  simp only [handle_user_message]
  rw [if_pos hcond]

/-- C3 witness: the "bogus" session id of the repository's own test, rejected
against the concrete one-session store. -/
theorem invalid_session_rejected_witness :
    handle_user_message demoComplete demoStore ⟨some "bogus", some "Hi"⟩ "10:01" =
      Except.ok (demoStore, [Event.error "Session not found"], none) :=
  invalid_session_rejected demoComplete demoStore ⟨some "bogus", some "Hi"⟩ "10:01"
    (Or.inr (Or.inr rfl))

/-- C4: the Session Store invariant — every existing session id maps to a
non-empty transcript whose first turn has role system — is established and
preserved by connect, and preserved by every execution of the user-message
handler, on the rejection, success and upstream-failure paths alike. -/
theorem store_invariant_maintained :
    (∀ store id ts, StoreInv store → StoreInv (handle_connect store id ts).1) ∧
    (∀ complete store data ts out, StoreInv store →
      handle_user_message complete store data ts = Except.ok out →
      StoreInv out.1) := by
  constructor
  · intro store id ts hinv
    exact storeInv_set store id _ hinv rfl
  · intro complete store data ts out hinv hrun
    rcases handle_user_message_cases complete store data ts with h | ⟨t, r, hfo, h⟩ | ⟨t, e, hfo, h⟩
    · rw [h] at hrun
      injection hrun with h2
      rw [← h2]
      exact hinv
    · rw [h] at hrun
      injection hrun with h2
      rw [← h2]
      exact storeInv_set store _ _ hinv
        (startsWithSystem_append t _ (hinv _ t hfo))
    · rw [h] at hrun
      injection hrun with h2
      rw [← h2]
      exact storeInv_set store _ _ hinv
        (startsWithSystem_append t _ (hinv _ t hfo))

/-- C4 witness: the invariant holds on the concrete store produced by a
connect followed by one successful exchange, by the two parts of the
theorem applied in turn starting from the empty store. -/
theorem store_invariant_maintained_witness :
    StoreInv ([("s1", [⟨Role.system, some SYSTEM_PROMPT⟩, ⟨Role.user, some "Hi"⟩,
      ⟨Role.assistant, some "Hello! How can I help you?"⟩])] : Store) := by
  have h0 : StoreInv [] := by
    intro id t h
    simp [Store.find] at h
  have h1 : StoreInv demoStore := store_invariant_maintained.1 [] "s1" "10:00" h0
  exact store_invariant_maintained.2 demoComplete demoStore ⟨some "s1", some "Hi"⟩
    "10:01"
    ([("s1", [⟨Role.system, some SYSTEM_PROMPT⟩, ⟨Role.user, some "Hi"⟩,
        ⟨Role.assistant, some "Hello! How can I help you?"⟩])],
      [Event.bot_message "Hello! How can I help you?" "10:01"],
      some ⟨MODEL_ID, [⟨Role.system, some SYSTEM_PROMPT⟩, ⟨Role.user, some "Hi"⟩]⟩)
    h1 rfl

/-- C5: every completion request carries the fixed model identifier
"llama-3.3-70b-versatile" and the session's full ordered transcript with the
just-appended user turn; concretely, the second user message after one
successful exchange produces a request of exactly the 4 turns system, user1,
assistant1, user2 in that order. -/
theorem completion_request_full_transcript (complete : CompleteFn) (store : Store)
    (sid : String) (msg : Option String) (t : Transcript) (ts : String)
    (out : Store × List Event × Option GroqRequest)
    (hsid : sid ≠ "") (hfind : Store.find store sid = some t)
    (hrun : handle_user_message complete store ⟨some sid, msg⟩ ts = Except.ok out) :
    out.2.2 = some ⟨MODEL_ID, t ++ [⟨Role.user, msg⟩]⟩ ∧
    (∃ s2 ev2,
      handle_user_message demoComplete demoSuccessStore
          ⟨some "s1", some "How are you?"⟩ "10:02" =
        Except.ok (s2, ev2, some ⟨MODEL_ID,
          [⟨Role.system, some SYSTEM_PROMPT⟩, ⟨Role.user, some "Hi"⟩,
           ⟨Role.assistant, some "Hello! How can I help you?"⟩,
           ⟨Role.user, some "How are you?"⟩]⟩)) ∧
    ([⟨Role.system, some SYSTEM_PROMPT⟩, ⟨Role.user, some "Hi"⟩,
      ⟨Role.assistant, some "Hello! How can I help you?"⟩,
      ⟨Role.user, some "How are you?"⟩] : List Turn).length = 4 := by
  refine ⟨?_, ⟨_, _, rfl⟩, rfl⟩
  cases htry : try_block complete ⟨MODEL_ID, t ++ [⟨Role.user, msg⟩]⟩ with
  | ok r =>
      have h := handle_user_message_ok_path complete store sid msg t ts r hsid hfind htry
      rw [h] at hrun
      injection hrun with h2
      rw [← h2]
  | error e =>
      have h := handle_user_message_err_path complete store sid msg t ts e hsid hfind htry
      rw [h] at hrun
      injection hrun with h2
      rw [← h2]

/-- C5 witness: the second user message on the demo session, instantiating
the theorem at the store obtained after one successful exchange. -/
theorem completion_request_full_transcript_witness :
    ∃ out, handle_user_message demoComplete demoSuccessStore
        ⟨some "s1", some "How are you?"⟩ "10:02" = Except.ok out ∧
      out.2.2 = some ⟨MODEL_ID,
        (demoTranscript2 ++ [⟨Role.assistant, some "Hello! How can I help you?"⟩]) ++
          [⟨Role.user, some "How are you?"⟩]⟩ := by
  refine ⟨_, rfl, ?_⟩
  exact (completion_request_full_transcript demoComplete demoSuccessStore "s1"
    (some "How are you?")
    (demoTranscript2 ++ [⟨Role.assistant, some "Hello! How can I help you?"⟩])
    "10:02" _ (by decide) (by rfl) (by rfl)).1

/-- C6: connect seeds the fresh session with exactly one system turn carrying
the fixed system prompt, emits the session_id event and the fixed greeting as
a bot_message, and the greeting is not appended to the transcript, whose
length is 1 immediately after connect. -/
theorem connect_seeds_single_system_turn (store : Store) (session_id ts : String) :
    handle_connect store session_id ts =
      (Store.set store session_id [⟨Role.system, some SYSTEM_PROMPT⟩],
       [Event.session_id session_id, Event.bot_message WELCOME_MESSAGE ts]) ∧
    Store.find (handle_connect store session_id ts).1 session_id =
      some [⟨Role.system, some SYSTEM_PROMPT⟩] ∧
    ([⟨Role.system, some SYSTEM_PROMPT⟩] : Transcript).length = 1 ∧
    ∀ turn ∈ ([⟨Role.system, some SYSTEM_PROMPT⟩] : Transcript),
      turn.content ≠ some WELCOME_MESSAGE := by
  refine ⟨rfl, find_set_self _ _ _, rfl, ?_⟩
  intro turn hturn
  simp only [List.mem_singleton] at hturn
  subst hturn
  simp only [ne_eq, Option.some.injEq]
  intro hcontra
  exact absurd hcontra (by decide)

/-- C7: for every inbound payload, every per-message failure is contained in
the relay handler: the handler always returns normally (no exception escapes
for any input) and emits exactly one user-visible event, a chat message or an
error event. -/
theorem relay_never_raises (complete : CompleteFn) (store : Store)
    (data : Payload) (ts : String) :
    ∃ store' events req,
      handle_user_message complete store data ts = Except.ok (store', events, req) ∧
      events.length = 1 ∧ ∀ ev ∈ events, Event.isUserVisible ev := by
  rcases handle_user_message_cases complete store data ts with h | ⟨t, r, _, h⟩ | ⟨t, e, _, h⟩
  · refine ⟨_, _, _, h, rfl, ?_⟩
    intro ev hev
    simp only [List.mem_singleton] at hev
    subst hev
    exact trivial
  · refine ⟨_, _, _, h, rfl, ?_⟩
    intro ev hev
    simp only [List.mem_singleton] at hev
    subst hev
    exact trivial
  · refine ⟨_, _, _, h, rfl, ?_⟩
    intro ev hev
    simp only [List.mem_singleton] at hev
    subst hev
    exact trivial

/-- C8: the spec-modelled Session Store remove operation deletes the entry for
the given id and is idempotent — applying it when the id is absent is a no-op,
and applying it twice equals applying it once. -/
theorem remove_idempotent_delete (s : Store) (id : String) :
    Store.find (Store.remove s id) id = none ∧
    (Store.find s id = none → Store.remove s id = s) ∧
    Store.remove (Store.remove s id) id = Store.remove s id :=
  ⟨find_remove_self s id, remove_absent s id, remove_remove s id⟩

/-- C8 witness: removal evaluated on the concrete one-session store — the
present id is deleted, an absent id is a no-op, and a second removal changes
nothing. -/
theorem remove_idempotent_delete_witness :
    Store.find (Store.remove demoStore "s1") "s1" = none ∧
    Store.remove demoStore "zz" = demoStore ∧
    Store.remove (Store.remove demoStore "s1") "s1" = Store.remove demoStore "s1" :=
  ⟨(remove_idempotent_delete demoStore "s1").1,
   (remove_idempotent_delete demoStore "zz").2.1 (by rfl),
   (remove_idempotent_delete demoStore "s1").2.2⟩

/-- C9: the disconnect handler performs no state cleanup — for every store
state the session store is returned unchanged, every session id still finds
its old transcript, and no event is emitted. -/
theorem disconnect_no_cleanup (store : Store) :
    handle_disconnect store = (store, []) ∧
    ∀ id, Store.find (handle_disconnect store).1 id = Store.find store id :=
  ⟨rfl, fun _ => rfl⟩

/-- C10: only the session id is validated — a payload whose session id exists
but whose message field is absent is not rejected: no error event is emitted,
a user-role turn with content None is appended, and the completion call is
invoked with that transcript. -/
theorem missing_message_not_validated (complete : CompleteFn) (store : Store)
    (sid : String) (t : Transcript) (ts : String)
    (hsid : sid ≠ "") (hfind : Store.find store sid = some t) :
    ∃ store' events,
      handle_user_message complete store ⟨some sid, none⟩ ts =
        Except.ok (store', events, some ⟨MODEL_ID, t ++ [⟨Role.user, none⟩]⟩) ∧
      (∀ m, Event.error m ∉ events) ∧
      ∃ suffix, Store.find store' sid = some (t ++ [⟨Role.user, none⟩] ++ suffix) := by
  cases htry : try_block complete ⟨MODEL_ID, t ++ [⟨Role.user, none⟩]⟩ with
  | ok r =>
      refine ⟨_, _,
        handle_user_message_ok_path complete store sid none t ts r hsid hfind htry,
        ?_, ⟨[⟨Role.assistant, some r⟩], ?_⟩⟩
      · intro m hm
        simp at hm
      · rw [find_set_self]
        simp
  | error e =>
      refine ⟨_, _,
        handle_user_message_err_path complete store sid none t ts e hsid hfind htry,
        ?_, ⟨[], ?_⟩⟩
      · intro m hm
        simp at hm
      · rw [find_set_self]
        simp

/-- C10 witness: the demo session with a payload lacking the message field,
instantiating the theorem at the concrete one-session store. -/
theorem missing_message_not_validated_witness :
    ∃ store' events,
      handle_user_message demoComplete demoStore ⟨some "s1", none⟩ "10:01" =
        Except.ok (store', events, some ⟨MODEL_ID,
          [⟨Role.system, some SYSTEM_PROMPT⟩] ++ [⟨Role.user, none⟩]⟩) ∧
      (∀ m, Event.error m ∉ events) ∧
      ∃ suffix, Store.find store' "s1" =
        some ([⟨Role.system, some SYSTEM_PROMPT⟩] ++ [⟨Role.user, none⟩] ++ suffix) :=
  missing_message_not_validated demoComplete demoStore "s1"
    [⟨Role.system, some SYSTEM_PROMPT⟩] "10:01" (by decide) (by rfl)
